import Mathlib

/-!
# CleanTrack — verification of the Checklist Execution Engine

Shallow embedding of the checklist-engine logic of the CleanTrack frontend
(`src/app/checklists/[id]/page.tsx`, `src/app/today-tasks/page.tsx`, the
checklists list page, `src/app/tasks/page.tsx` (review page),
`src/components/rooms/room-management-dialog.tsx`,
`src/components/ui/tag-input.tsx`,
`src/components/rooms/room-selection-card.tsx`, `src/lib/api.ts`),
together with theorems settling the specification claims about the
Room Sequencer, the Photo Requirement Gate, the Checklist State Machine,
and the Geofence Start Guard.

The backend (Laravel API) is not part of the repository sources; where a
claim depends on a backend transition, the transition is modelled from the
spec and marked as such in its doc comment.
-/

namespace CleanTrack

/-! ## Domain model (from `src/lib/api.ts`) -/

/-- Values of `Checklist.status` (`'pending' | 'in_progress' | 'completed' | 'reviewed'`). -/
inductive Status
  | pending
  | in_progress
  | completed
  | reviewed
deriving DecidableEq, Repr

/-- Values of `User.role` (`'admin' | 'property_owner' | 'housekeeper'`). -/
inductive Role
  | admin
  | property_owner
  | housekeeper
deriving DecidableEq, Repr

/-- One photo record on a checklist item: `{ path, uploaded_at }`. -/
structure PhotoRec where
  path : String
  uploaded_at : String
deriving DecidableEq, Repr

/-- The room-on-property pivot: `{ requires_photo?, photos_required_count? }`
(the other pivot fields play no role in the engine). -/
structure Pivot where
  requires_photo : Option Bool
  photos_required_count : Option Nat
deriving DecidableEq, Repr

/-- A room as the checklist page consumes it: identity, display name and
optional pivot.  The property's `rooms` array is already in pivot order. -/
structure Room where
  id : String
  name : String
  pivot : Option Pivot
deriving DecidableEq, Repr

/-- A checklist item (`ChecklistItem` in `api.ts`): the fields the engine
reads.  `photos` is optional in the API payload (`it.photos || []`). -/
structure ChecklistItem where
  id : String
  room_id : String
  completed : Bool
  notes : Option String
  photos : Option (List PhotoRec)
deriving DecidableEq, Repr

/-- A checklist (`Checklist` in `api.ts`): the fields the engine reads.
`propertyRooms` stands for `checklist.property?.rooms` (the page reads it as
`data.property?.rooms || []`), `items` for the optional `items` array. -/
structure Checklist where
  id : String
  status : Status
  rating : Option Nat
  notes : Option String
  propertyRooms : Option (List Room)
  items : Option (List ChecklistItem)
deriving DecidableEq, Repr

/-- Embeds `data.property?.rooms || []`. -/
def orderedRooms (cl : Checklist) : List Room := cl.propertyRooms.getD []

/-- Embeds `data.items || []`. -/
def checklistItems (cl : Checklist) : List ChecklistItem := cl.items.getD []

/-! ## Room Sequencer
(`src/app/checklists/[id]/page.tsx`, lines 56–61 and 132–137) -/

/-- Embeds `items.some(it => it.room_id === r.id && !it.completed)`. -/
def hasIncompleteItem (items : List ChecklistItem) (r : Room) : Bool :=
  items.any fun it => it.room_id == r.id && !it.completed

/-- Embeds `orderedRooms.find(r => items.some(it => it.room_id === r.id && !it.completed))`. -/
def firstPendingRoom (rooms : List Room) (items : List ChecklistItem) : Option Room :=
  rooms.find? (hasIncompleteItem items)

/-- JavaScript `a || b` on an optional string: `undefined`/`null` and the
empty string are falsy and fall through to `b`. -/
def orFalsy (a b : Option String) : Option String :=
  match a with
  | some s => if s = "" then b else some s
  | none => b

/-- Embeds `(firstPending as any)?.id || (orderedRooms[0] as any)?.id || null`
(page lines 61 and 136). -/
def currentRoomId (rooms : List Room) (items : List ChecklistItem) : Option String :=
  orFalsy ((firstPendingRoom rooms items).map Room.id)
    (orFalsy ((rooms.head?).map Room.id) none)

/-- The current-room computation in the words of the spec (§4.1): the first
room in defined order with at least one incomplete associated item; if none,
the first room in order when the room list is non-empty, else null.  Used
only to compare against `currentRoomId`, which is embedded from the code. -/
def currentRoomSpec (rooms : List Room) (items : List ChecklistItem) : Option String :=
  match rooms.find? (fun r => items.any fun it => it.room_id == r.id && !it.completed) with
  | some r => some r.id
  | none => (rooms.head?).map Room.id

/-! ## Photo Requirement Gate
(`src/app/checklists/[id]/page.tsx`, lines 63–69, 138–145 and 628–636) -/

/-- Embeds `it.photos || []`. -/
def itemPhotos (it : ChecklistItem) : List PhotoRec := it.photos.getD []

/-- Embeds `items.filter(it => it.room_id === roomId).flatMap(it => it.photos || []).length`:
photos persisted on any item of the given room. -/
def roomPhotoTotal (items : List ChecklistItem) (roomId : String) : Nat :=
  (((items.filter fun it => it.room_id == roomId).map itemPhotos).flatten).length

/-- Embeds `Math.max(0, Number(current.pivot?.photos_required_count || 0))`. -/
def requiredPhotos (pivot : Option Pivot) : Nat :=
  Nat.max 0 ((pivot.map fun pv => pv.photos_required_count.getD 0).getD 0)

/-- The Submit button's `disabled` expression (lines 631–635):
`updating === item.id || (required > 0 && total + staged < required)`,
where `required`/`total` are the current room's photo progress and `staged`
is `selectedPhotosMap[item.id]?.length || 0`.  Note the expression never
consults the pivot's `requires_photo` flag. -/
def submitDisabled (updating : Option String) (itemId : String)
    (required total staged : Nat) : Bool :=
  (updating == some itemId) || (decide (0 < required) && decide (total + staged < required))

/-! ## Checklist State Machine — frontend gates
(`src/app/checklists/[id]/page.tsx`, lines 242–247, 330–355) -/

/-- Embeds `checklist?.items?.filter(item => item.completed).length || 0`. -/
def completedTasks (cl : Option Checklist) : Nat :=
  (((cl.map checklistItems).getD []).filter (·.completed)).length

/-- Embeds `checklist?.items?.length || 0`. -/
def totalTasks (cl : Option Checklist) : Nat :=
  ((cl.map checklistItems).getD []).length

/-- Embeds `checklist?.status === 'pending'`. -/
def canStart (cl : Option Checklist) : Bool :=
  match cl with
  | some c => c.status == Status.pending
  | none => false

/-- Embeds `checklist?.status === 'in_progress' && completedTasks === totalTasks`. -/
def canComplete (cl : Option Checklist) : Bool :=
  (match cl with
    | some c => c.status == Status.in_progress
    | none => false)
  && (completedTasks cl == totalTasks cl)

/-- JavaScript truthiness of the optional numeric `checklist.rating`:
`undefined`/`null` and `0` are falsy. -/
def ratingTruthy (rating : Option Nat) : Bool :=
  match rating with
  | some n => n != 0
  | none => false

/-- Details page: the Start button renders iff
`canStart && user?.role === 'housekeeper'` (lines 331–338). -/
def showStartDetails (cl : Option Checklist) (role : Option Role) : Bool :=
  canStart cl && (role == some Role.housekeeper)

/-- Details page: the Complete button renders iff
`canComplete && user?.role === 'housekeeper'` (lines 339–346). -/
def showCompleteDetails (cl : Option Checklist) (role : Option Role) : Bool :=
  canComplete cl && (role == some Role.housekeeper)

/-- Details page: the Review link renders iff
`checklist.status === 'completed' && !checklist.rating &&
(user?.role === 'admin' || user?.role === 'property_owner')` (lines 347–354). -/
def showReviewDetails (status : Status) (rating : Option Nat) (role : Option Role) : Bool :=
  status == Status.completed && !ratingTruthy rating
    && (role == some Role.admin || role == some Role.property_owner)

/-! ## Checklists list page (the unnamed `ChecklistsPage` source file) -/

/-- List page: `checklist.items?.filter(item => item.completed).length || 0`. -/
def getCompletedTasksCount (cl : Checklist) : Nat :=
  ((checklistItems cl).filter (·.completed)).length

/-- List page: `checklist.items?.length || 0`. -/
def getTotalTasksCount (cl : Checklist) : Nat :=
  (checklistItems cl).length

/-- List page: the Start button renders iff `checklist.status === 'pending'`.
The surrounding render consults no user role (the page sits in a
`ProtectedRoute` without a `roles` prop), so the signed-in `role` argument is
ignored, as in the source. -/
def showStartList (cl : Checklist) (_role : Role) : Bool :=
  cl.status == Status.pending

/-- List page: the Complete button renders iff
`checklist.status === 'in_progress' &&
getCompletedTasksCount(checklist) === getTotalTasksCount(checklist)`;
again no role is consulted. -/
def showCompleteList (cl : Checklist) (_role : Role) : Bool :=
  cl.status == Status.in_progress
    && (getCompletedTasksCount cl == getTotalTasksCount cl)

/-- List page: the Review button renders iff `checklist.status === 'completed'
&& !checklist.rating && (user?.role === 'admin' || user?.role === 'property_owner')`. -/
def showReviewList (cl : Checklist) (role : Option Role) : Bool :=
  cl.status == Status.completed && !ratingTruthy cl.rating
    && (role == some Role.admin || role == some Role.property_owner)

/-! ## Review page (`src/app/tasks/page.tsx`, `ReviewChecklistPage`) -/

/-- Roles accepted by the review page's `ProtectedRoute roles={['admin',
'property_owner']}` wrapper. -/
def reviewPageRoles : List Role := [Role.admin, Role.property_owner]

/-- The review page renders its form only past the guard
`if (!checklist || checklist.status !== 'completed')` (which otherwise shows
"Checklist is not ready for review"). -/
def reviewPageReady (cl : Option Checklist) : Bool :=
  match cl with
  | some c => c.status == Status.completed
  | none => false

/-- Roles accepted by the today-tasks page's
`ProtectedRoute roles={['housekeeper']}` wrapper. -/
def todayTasksRoles : List Role := [Role.housekeeper]

/-! ## API calls and page effects

The handlers below are embedded as pure functions: outcomes of the awaited
API calls are passed in as arguments, and each handler returns the resulting
page state together with the list of API requests it issued, in order. -/

/-- A geographic fix, `{ latitude, longitude }`.  The engine never computes
on the coordinates — they are forwarded verbatim — so they are carried as
opaque integer payloads here. -/
structure Coords where
  latitude : Int
  longitude : Int
deriving DecidableEq, Repr

/-- The backend requests issued by the checklist pages
(`src/lib/api.ts` methods). -/
inductive ApiCall
  | updateItem (checklistId itemId : String) (completed : Bool)
      (notes : String) (photos : List String)
  | getChecklist (id : String)
  | startChecklist (id : String) (coords : Option Coords)
  | completeChecklist (id : String)
  | reviewChecklist (id : String) (rating : Nat) (notes : Option String)
  | fetchChecklists
  | fetchTodayTasks
deriving DecidableEq, Repr

/-- React state of the checklist details page that the engine logic touches.
The `Record<string, _>` maps are total functions, reads defaulting exactly as
the code's `prev[item.id] || []` / `|| ''` do. -/
structure PageState where
  checklist : Option Checklist
  error : Option String
  success : Option String
  updating : Option String
  selectedPhotosMap : String → List String
  photoPreviewsMap : String → List String
  itemNotesMap : String → String
  currentRoomId : Option String
  roomRequired : Nat
  roomTotal : Nat

/-- Lines 138–145 (and 63–72): recompute the room photo progress
`{ required, total }` for the given current-room id.  `required` reads
`rooms.find(r => r.id === newCurrentId)?.pivot?.photos_required_count || 0`
through `Math.max(0, Number(·))`. -/
def roomProgress (rooms : List Room) (items : List ChecklistItem) :
    Option String → Nat × Nat
  | some rid =>
      (Nat.max 0 ((((rooms.find? fun r => r.id == rid).map
          fun r => (r.pivot.map fun pv => pv.photos_required_count.getD 0).getD 0).getD 0)),
       roomPhotoTotal items rid)
  | none => (0, 0)

/-- Embeds `handleSubmit` of the checklist details page (lines 106–159).
`updateOutcome` is the outcome of `apiService.updateChecklistItem`,
`refreshOutcome` that of the subsequent `apiService.getChecklist` refresh;
an `Except.error` models the call throwing with that message.  The success
message interpolates the task title in the source; its exact text is
irrelevant to the engine and is carried here as a constant. -/
def handleSubmit (s : PageState) (item : ChecklistItem)
    (updateOutcome : Except String Unit)
    (refreshOutcome : Except String Checklist) : PageState × List ApiCall :=
  let photos := s.selectedPhotosMap item.id
  let notes := s.itemNotesMap item.id
  match s.checklist with
  | none => (s, [])
  | some cl =>
    if item.completed then
      ({ s with error := some "Cannot modify a completed task." }, [])
    else
      let upd := ApiCall.updateItem cl.id item.id true notes photos
      match updateOutcome with
      | .error msg =>
          ({ s with updating := none, error := some msg }, [upd])
      | .ok _ =>
        match refreshOutcome with
        | .error msg =>
            ({ s with updating := none, error := some msg },
             [upd, ApiCall.getChecklist cl.id])
        | .ok data =>
          let rooms := orderedRooms data
          let items := checklistItems data
          let newCurrentId := currentRoomId rooms items
          let progress := roomProgress rooms items newCurrentId
          ({ s with
              checklist := some data,
              currentRoomId := newCurrentId,
              roomRequired := progress.1,
              roomTotal := progress.2,
              selectedPhotosMap := fun k => if k = item.id then [] else s.selectedPhotosMap k,
              photoPreviewsMap := fun k => if k = item.id then [] else s.photoPreviewsMap k,
              itemNotesMap := fun k => if k = item.id then "" else s.itemNotesMap k,
              success := some "Task updated successfully!",
              error := none,
              updating := none },
           [upd, ApiCall.getChecklist cl.id])

/-! ## Geofence Start Guard
(`src/app/checklists/[id]/page.tsx` lines 165–196,
`src/app/today-tasks/page.tsx` lines 51–80, and the start handler of the
checklists list page) -/

/-- The rejection payload a failed `startChecklist` call may carry
(`err.message`, `err.data?.distance_meters`, `err.data?.allowed_meters`).
Distances are carried already rounded. -/
structure StartError where
  message : String
  distance_meters : Option Nat
  allowed_meters : Option Nat
deriving DecidableEq, Repr

/-- The ` (You are ~Xm away; allowed Ym)` suffix appended when
`err?.data?.distance_meters !== undefined`. -/
def startErrorExtra (e : StartError) : String :=
  match e.distance_meters with
  | some d =>
      " (You are ~" ++ toString d ++ "m away; allowed "
        ++ (match e.allowed_meters with
            | some a => toString a
            | none => "undefined") ++ "m)"
  | none => ""

/-- Embeds `handleStartChecklist` of the checklist details page (lines 165–196):
`geoSupported` models `navigator.geolocation` being present, `fix` the
outcome of `getCurrentPosition` (`none` when it rejected — permission denied
or timeout), `startOutcome` the outcome of `apiService.startChecklist`.
Returns the error message set (if any) and the API requests issued. -/
def handleStartDetails (clId : String) (geoSupported : Bool)
    (fix : Option Coords) (startOutcome : Except StartError Unit) :
    Option String × List ApiCall :=
  if !geoSupported then
    (some "Location permission is required to start this checklist.", [])
  else
    match fix with
    | none =>
        (some "Unable to get your location. Please enable location services and try again.", [])
    | some c =>
      match startOutcome with
      | .error e =>
          (some (e.message ++ startErrorExtra e), [ApiCall.startChecklist clId (some c)])
      | .ok _ =>
          (none, [ApiCall.startChecklist clId (some c), ApiCall.getChecklist clId])

/-- Embeds `handleStartChecklist` of the today-tasks page (lines 51–80): identical
guard; on success it refreshes the task list instead. -/
def handleStartToday (clId : String) (geoSupported : Bool)
    (fix : Option Coords) (startOutcome : Except StartError Unit) :
    Option String × List ApiCall :=
  if !geoSupported then
    (some "Location permission is required to start a checklist.", [])
  else
    match fix with
    | none =>
        (some "Unable to get your location. Please enable location services and try again.", [])
    | some c =>
      match startOutcome with
      | .error e =>
          (some (e.message ++ startErrorExtra e), [ApiCall.startChecklist clId (some c)])
      | .ok _ =>
          (none, [ApiCall.startChecklist clId (some c), ApiCall.fetchTodayTasks])

/-- Embeds `handleStartChecklist` of the checklists list page: it calls
`apiService.startChecklist(checklistId)` with no coordinates and without
consulting geolocation at all; on success it refetches the list. -/
def handleStartList (clId : String) (startOutcome : Except String Unit) :
    Option String × List ApiCall :=
  match startOutcome with
  | .error msg => (some msg, [ApiCall.startChecklist clId none])
  | .ok _ => (none, [ApiCall.startChecklist clId none, ApiCall.fetchChecklists])

/-! ## photos_required_count input sites -/

/-- Embeds the `room-management-dialog.tsx` count `onChange`: empty input clears the
count to `undefined`; otherwise
`Math.max(1, Math.min(10, parseInt(raw, 10)))` (the key/paste guards keep
`raw` to digit strings, carried here as the parsed `Nat`). -/
def clampDialogCount (raw : Option Nat) : Option Nat :=
  match raw with
  | none => none
  | some n => some (Nat.max 1 (Nat.min 10 n))

/-- Embeds the `tag-input.tsx` count `onChange`: same handling as the room dialog. -/
def clampTagInputCount (raw : Option Nat) : Option Nat :=
  match raw with
  | none => none
  | some n => some (Nat.max 1 (Nat.min 10 n))

/-- Embeds the `room-selection-card.tsx` count `onChange`: empty input stores "no
requirement" (count 0 sent to the API, local pivot count cleared); otherwise
`Math.max(0, Math.min(10, parseInt(raw, 10)))` is stored. -/
def clampCardCount (raw : Option Nat) : Option Nat :=
  match raw with
  | none => none
  | some n => some (Nat.max 0 (Nat.min 10 n))

/-! ## State-machine transitions modelled from the spec

The Laravel backend that executes the POST
`/checklists/{id}/start|complete|review` and PUT `/checklists/{id}/items/{id}`
requests is not among the repository sources; only its callers are.  The
transitions below are modelled from spec §4.3/§7 where a claim needs the
backend's effect. -/

/-- The typed error kinds of spec §7. -/
inductive EngineError
  | IllegalTransition
  | ItemLocked
  | IncompleteChecklist
  | InsufficientPhotos
  | LocationUnavailable
  | OutOfRange
  | InvalidRating
deriving DecidableEq, Repr

/-- Modelled from the spec: the backend `complete(checklist)` transition
(§4.3) — "legal only from `in_progress` and only when every item is
`completed`; sets status to `completed`", failing with `IllegalTransition`
on a wrong source status and `IncompleteChecklist` on outstanding items.
The backend handler itself is not among the repository sources. -/
def completeTransition (cl : Checklist) : Except EngineError Checklist :=
  if cl.status ≠ Status.in_progress then
    .error .IllegalTransition
  else if (checklistItems cl).all (·.completed) then
    .ok { cl with status := Status.completed }
  else
    .error .IncompleteChecklist

/-- A concrete page state with staged form data for item `i1`, used to
exercise the submission frame conditions. -/
def frameState : PageState :=
  { checklist := some (Checklist.mk "c1" Status.in_progress none none (some [])
      (some [ChecklistItem.mk "i1" "r1" false none none])),
    error := none,
    success := none,
    updating := none,
    selectedPhotosMap := fun k => if k = "i1" then ["p1.jpg"] else [],
    photoPreviewsMap := fun k => if k = "i1" then ["data1"] else [],
    itemNotesMap := fun k => if k = "i1" then "draft note" else "",
    currentRoomId := none,
    roomRequired := 0,
    roomTotal := 0 }

/-- The not-yet-completed item `i1` of `frameState`. -/
def frameItem : ChecklistItem := ChecklistItem.mk "i1" "r1" false none none

/-! ## Theorems -/

/-- C1: for every ordered room list and every item list, the current-room
computation returns the first room in order with at least one associated
incomplete item; if no such room exists it returns the first room in order
when the room list is non-empty, and null when it is empty (stated as
equality with `currentRoomSpec`, the claim's wording; room identities are
non-empty strings). -/
theorem currentRoom_matches_spec (rooms : List Room) (items : List ChecklistItem)
    (h : ∀ r ∈ rooms, r.id ≠ "") :
    currentRoomId rooms items = currentRoomSpec rooms items := by
  unfold currentRoomSpec
  have hpred : rooms.find? (fun r => items.any fun it => it.room_id == r.id && !it.completed)
      = firstPendingRoom rooms items := rfl
  rw [hpred]
  cases hf : firstPendingRoom rooms items with
  | some r =>
      have hr : r ∈ rooms := List.mem_of_find?_eq_some hf
      simp [currentRoomId, hf, orFalsy, h r hr]
  | none =>
      cases rooms with
      | nil => simp [currentRoomId, firstPendingRoom] at hf ⊢; simp [orFalsy]
      | cons a l =>
          have ha : a.id ≠ "" := h a (List.mem_cons_self a l)
          simp [currentRoomId, hf, orFalsy, ha]

/-- Witness for `currentRoom_matches_spec` (spec scenario A: Kitchen before
Bath, Kitchen's item incomplete, Bath's item complete). -/
theorem currentRoom_matches_spec_witness :
    (∀ r ∈ [Room.mk "kitchen" "Kitchen" none, Room.mk "bath" "Bath" none], r.id ≠ "") ∧
    currentRoomId [Room.mk "kitchen" "Kitchen" none, Room.mk "bath" "Bath" none]
        [ChecklistItem.mk "i1" "kitchen" false none none,
         ChecklistItem.mk "i2" "bath" true none none]
      = currentRoomSpec [Room.mk "kitchen" "Kitchen" none, Room.mk "bath" "Bath" none]
        [ChecklistItem.mk "i1" "kitchen" false none none,
         ChecklistItem.mk "i2" "bath" true none none] :=
  ⟨by decide, currentRoom_matches_spec _ _ (by decide)⟩

/-- C4: submitting an item whose `completed` flag is already true is rejected
with an explicit error, and no API request is issued: the handler returns the
old state with only the error message set, for any checklist status. -/
theorem submit_locked_item_rejected (s : PageState) (item : ChecklistItem)
    (u : Except String Unit) (r : Except String Checklist) (cl : Checklist)
    (hcl : s.checklist = some cl) (hdone : item.completed = true) :
    handleSubmit s item u r =
      ({ s with error := some "Cannot modify a completed task." }, []) := by
  simp [handleSubmit, hcl, hdone]

/-- Witness for `submit_locked_item_rejected`: a completed item on a
`reviewed` checklist. -/
theorem submit_locked_item_rejected_witness :
    (PageState.mk (some (Checklist.mk "c1" Status.reviewed none none (some []) (some [])))
        none none none (fun _ => []) (fun _ => []) (fun _ => "") none 0 0).checklist
      = some (Checklist.mk "c1" Status.reviewed none none (some []) (some [])) ∧
    (ChecklistItem.mk "i1" "r1" true none none).completed = true ∧
    handleSubmit
        (PageState.mk (some (Checklist.mk "c1" Status.reviewed none none (some []) (some [])))
          none none none (fun _ => []) (fun _ => []) (fun _ => "") none 0 0)
        (ChecklistItem.mk "i1" "r1" true none none) (Except.ok ())
        (Except.error "unused")
      = ({ PageState.mk (some (Checklist.mk "c1" Status.reviewed none none (some []) (some [])))
            none none none (fun _ => []) (fun _ => []) (fun _ => "") none 0 0
            with error := some "Cannot modify a completed task." }, []) :=
  ⟨rfl, rfl, submit_locked_item_rejected _ _ _ _ _ rfl rfl⟩

/-- C2: for a room whose pivot has `requires_photo = true` and a configured
count `C ≥ 1`, and no submission in flight, the Submit button is enabled iff
the photos persisted on any item of the room plus the photos staged for this
submission reach `C`; exactly `C` passes and `C − 1` fails. -/
theorem photoGate_threshold (r : Room) (pv : Pivot) (C : Nat)
    (items : List ChecklistItem) (itemId : String) (updating : Option String)
    (staged : Nat)
    (hpv : r.pivot = some pv)
    (_hreq : pv.requires_photo = some true)
    (hC : pv.photos_required_count = some C) (hC1 : 1 ≤ C)
    (hupd : updating ≠ some itemId) :
    (submitDisabled updating itemId (requiredPhotos r.pivot)
        (roomPhotoTotal items r.id) staged = false
      ↔ C ≤ roomPhotoTotal items r.id + staged) ∧
    (roomPhotoTotal items r.id + staged = C →
      submitDisabled updating itemId (requiredPhotos r.pivot)
        (roomPhotoTotal items r.id) staged = false) ∧
    (roomPhotoTotal items r.id + staged = C - 1 →
      submitDisabled updating itemId (requiredPhotos r.pivot)
        (roomPhotoTotal items r.id) staged = true) := by
  have hreqd : requiredPhotos r.pivot = C := by
    simp [requiredPhotos, hpv, hC]
  have hu : (updating == some itemId) = false := by
    simpa using hupd
  refine ⟨?_, ?_, ?_⟩
  · simp [submitDisabled, hreqd, hu]
    omega
  · intro hsum
    simp [submitDisabled, hreqd, hu]
    omega
  · intro hsum
    simp [submitDisabled, hreqd, hu]
    omega

/-- Witness for `photoGate_threshold` (spec scenario B: Bath requires 2
photos, one already persisted on a Bath item, one staged). -/
theorem photoGate_threshold_witness :
    (Room.mk "bath" "Bath" (some (Pivot.mk (some true) (some 2)))).pivot
        = some (Pivot.mk (some true) (some 2)) ∧
    (Pivot.mk (some true) (some 2)).requires_photo = some true ∧
    (Pivot.mk (some true) (some 2)).photos_required_count = some 2 ∧
    (1 : Nat) ≤ 2 ∧
    (none : Option String) ≠ some "i1" ∧
    ((submitDisabled none "i1"
        (requiredPhotos (Room.mk "bath" "Bath" (some (Pivot.mk (some true) (some 2)))).pivot)
        (roomPhotoTotal [ChecklistItem.mk "i1" "bath" false none
            (some [PhotoRec.mk "p1" "t1"])] "bath") 1 = false
      ↔ 2 ≤ roomPhotoTotal [ChecklistItem.mk "i1" "bath" false none
            (some [PhotoRec.mk "p1" "t1"])] "bath" + 1) ∧
     (roomPhotoTotal [ChecklistItem.mk "i1" "bath" false none
            (some [PhotoRec.mk "p1" "t1"])] "bath" + 1 = 2 →
       submitDisabled none "i1"
        (requiredPhotos (Room.mk "bath" "Bath" (some (Pivot.mk (some true) (some 2)))).pivot)
        (roomPhotoTotal [ChecklistItem.mk "i1" "bath" false none
            (some [PhotoRec.mk "p1" "t1"])] "bath") 1 = false) ∧
     (roomPhotoTotal [ChecklistItem.mk "i1" "bath" false none
            (some [PhotoRec.mk "p1" "t1"])] "bath" + 1 = 2 - 1 →
       submitDisabled none "i1"
        (requiredPhotos (Room.mk "bath" "Bath" (some (Pivot.mk (some true) (some 2)))).pivot)
        (roomPhotoTotal [ChecklistItem.mk "i1" "bath" false none
            (some [PhotoRec.mk "p1" "t1"])] "bath") 1 = true)) :=
  ⟨rfl, rfl, rfl, by decide, by decide,
   photoGate_threshold _ _ 2 _ "i1" none 1 rfl rfl rfl (by decide) (by decide)⟩

/-- C3 counterexample: a room whose pivot has `requires_photo = false` but
`photos_required_count = 1` still has its Submit button disabled with no
photos persisted or staged — the gate never consults `requires_photo`. -/
theorem photoGate_blocks_despite_requiresPhoto_false :
    (Pivot.mk (some false) (some 1)).requires_photo = some false ∧
    submitDisabled none "i1"
      (requiredPhotos (some (Pivot.mk (some false) (some 1)))) 0 0 = true := by
  constructor
  · rfl
  · decide

/-- C3 amended: for a room whose pivot has `requires_photo = false`, the
Submit button (no submission in flight) is enabled iff the configured count
is zero/absent or persisted + staged photos reach it — the gate evaluates
only `photos_required_count` and ignores `requires_photo` entirely. -/
theorem photoGate_ignores_requiresPhoto (pv : Pivot) (itemId : String)
    (updating : Option String) (total staged : Nat)
    (_hreq : pv.requires_photo = some false)
    (hupd : updating ≠ some itemId) :
    (submitDisabled updating itemId (requiredPhotos (some pv)) total staged = false
      ↔ (requiredPhotos (some pv) = 0 ∨ requiredPhotos (some pv) ≤ total + staged)) ∧
    (∀ b b' : Option Bool, ∀ c : Option Nat,
      requiredPhotos (some (Pivot.mk b c)) = requiredPhotos (some (Pivot.mk b' c))) := by
  have hu : (updating == some itemId) = false := by
    simpa using hupd
  refine ⟨?_, fun b b' c => rfl⟩
  simp [submitDisabled, hu]
  omega

/-- Witness for `photoGate_ignores_requiresPhoto`: count 3, two persisted,
one staged. -/
theorem photoGate_ignores_requiresPhoto_witness :
    (Pivot.mk (some false) (some 3)).requires_photo = some false ∧
    (none : Option String) ≠ some "i1" ∧
    ((submitDisabled none "i1"
        (requiredPhotos (some (Pivot.mk (some false) (some 3)))) 2 1 = false
      ↔ (requiredPhotos (some (Pivot.mk (some false) (some 3))) = 0 ∨
         requiredPhotos (some (Pivot.mk (some false) (some 3))) ≤ 2 + 1)) ∧
     (∀ b b' : Option Bool, ∀ c : Option Nat,
       requiredPhotos (some (Pivot.mk b c)) = requiredPhotos (some (Pivot.mk b' c)))) :=
  ⟨rfl, by decide, photoGate_ignores_requiresPhoto _ "i1" none 2 1 rfl (by decide)⟩

/-- C5: the Complete transition is offered (frontend `canComplete`) exactly
when the status is `in_progress` and every item is completed (vacuously for
an empty item list), and the transition modelled from the spec fails whenever
some item is incomplete and on success sets the status to `completed`. -/
theorem complete_gate_and_transition (cl : Checklist) :
    (canComplete (some cl) = true ↔
      (cl.status = Status.in_progress ∧ ∀ it ∈ checklistItems cl, it.completed = true)) ∧
    (∀ cl', completeTransition cl = Except.ok cl' →
      cl.status = Status.in_progress ∧ (∀ it ∈ checklistItems cl, it.completed = true) ∧
      cl'.status = Status.completed) ∧
    ((∃ it ∈ checklistItems cl, it.completed = false) →
      completeTransition cl = Except.error EngineError.IllegalTransition ∨
      completeTransition cl = Except.error EngineError.IncompleteChecklist) ∧
    (checklistItems cl = [] → cl.status = Status.in_progress →
      completeTransition cl = Except.ok { cl with status := Status.completed }) := by
  refine ⟨?_, ?_, ?_, ?_⟩
  · simp only [canComplete, completedTasks, totalTasks, Option.map_some, Option.getD_some,
      Bool.and_eq_true, beq_iff_eq]
    rw [List.filter_length_eq_length]
    simp
  · intro cl' h
    unfold completeTransition at h
    by_cases hst : cl.status = Status.in_progress
    · rw [if_neg (by simp [hst])] at h
      by_cases hall : (checklistItems cl).all (·.completed) = true
      · rw [if_pos hall] at h
        have hcl' : cl' = { cl with status := Status.completed } := by
          cases h; rfl
        refine ⟨hst, ?_, by rw [hcl']⟩
        intro it hit
        exact List.all_eq_true.mp hall it hit
      · rw [if_neg hall] at h
        cases h
    · rw [if_pos hst] at h
      cases h
  · rintro ⟨it, hit, hf⟩
    unfold completeTransition
    by_cases hst : cl.status = Status.in_progress
    · right
      have hall : ¬ ((checklistItems cl).all (·.completed) = true) := by
        intro hall
        have := List.all_eq_true.mp hall it hit
        rw [hf] at this
        exact Bool.false_ne_true this
      rw [if_neg (by simp [hst]), if_neg hall]
    · left
      rw [if_pos hst]
  · intro hnil hst
    unfold completeTransition
    rw [if_neg (by simp [hst]), if_pos (by simp [hnil])]

/-- Witness for `complete_gate_and_transition`: an `in_progress` checklist
with its single item completed. -/
theorem complete_gate_and_transition_witness :
    (canComplete (some (Checklist.mk "c1" Status.in_progress none none (some [])
        (some [ChecklistItem.mk "i1" "r1" true none none]))) = true ↔
      ((Checklist.mk "c1" Status.in_progress none none (some [])
          (some [ChecklistItem.mk "i1" "r1" true none none])).status = Status.in_progress ∧
        ∀ it ∈ checklistItems (Checklist.mk "c1" Status.in_progress none none (some [])
          (some [ChecklistItem.mk "i1" "r1" true none none])), it.completed = true)) ∧
    (∀ cl', completeTransition (Checklist.mk "c1" Status.in_progress none none (some [])
        (some [ChecklistItem.mk "i1" "r1" true none none])) = Except.ok cl' →
      (Checklist.mk "c1" Status.in_progress none none (some [])
          (some [ChecklistItem.mk "i1" "r1" true none none])).status = Status.in_progress ∧
      (∀ it ∈ checklistItems (Checklist.mk "c1" Status.in_progress none none (some [])
          (some [ChecklistItem.mk "i1" "r1" true none none])), it.completed = true) ∧
      cl'.status = Status.completed) ∧
    ((∃ it ∈ checklistItems (Checklist.mk "c1" Status.in_progress none none (some [])
        (some [ChecklistItem.mk "i1" "r1" true none none])), it.completed = false) →
      completeTransition (Checklist.mk "c1" Status.in_progress none none (some [])
          (some [ChecklistItem.mk "i1" "r1" true none none]))
        = Except.error EngineError.IllegalTransition ∨
      completeTransition (Checklist.mk "c1" Status.in_progress none none (some [])
          (some [ChecklistItem.mk "i1" "r1" true none none]))
        = Except.error EngineError.IncompleteChecklist) ∧
    (checklistItems (Checklist.mk "c1" Status.in_progress none none (some [])
        (some [ChecklistItem.mk "i1" "r1" true none none])) = [] →
      (Checklist.mk "c1" Status.in_progress none none (some [])
          (some [ChecklistItem.mk "i1" "r1" true none none])).status = Status.in_progress →
      completeTransition (Checklist.mk "c1" Status.in_progress none none (some [])
          (some [ChecklistItem.mk "i1" "r1" true none none]))
        = Except.ok { Checklist.mk "c1" Status.in_progress none none (some [])
            (some [ChecklistItem.mk "i1" "r1" true none none])
            with status := Status.completed }) :=
  complete_gate_and_transition _

/-- C6 counterexample: the checklists list page's start handler forwards the
start request to the backend with no coordinates and without ever consulting
geolocation — so a start attempt from that view contacts the external
authority even when no location fix is obtainable. -/
theorem startList_forwards_without_fix :
    handleStartList "c1" (Except.ok ()) =
      (none, [ApiCall.startChecklist "c1" none, ApiCall.fetchChecklists]) ∧
    ApiCall.startChecklist "c1" none ∈ (handleStartList "c1" (Except.ok ())).2 := by
  refine ⟨rfl, ?_⟩
  simp [handleStartList]

/-- C6 amended: the geolocation-guarded start handlers (checklist details
page and today-tasks page) fail fast with a location-unavailable error and
issue no request when geolocation is unsupported or no fix is obtained, and
forward the obtained coordinates first whenever a fix exists; the checklists
list page, however, forwards the start request without any location fix. -/
theorem startGuard_sequencing (clId : String) (geoSupported : Bool)
    (fix : Option Coords) (o : Except StartError Unit) :
    (geoSupported = false →
      handleStartDetails clId geoSupported fix o =
        (some "Location permission is required to start this checklist.", []) ∧
      handleStartToday clId geoSupported fix o =
        (some "Location permission is required to start a checklist.", [])) ∧
    (geoSupported = true → fix = none →
      handleStartDetails clId geoSupported fix o =
        (some "Unable to get your location. Please enable location services and try again.", []) ∧
      handleStartToday clId geoSupported fix o =
        (some "Unable to get your location. Please enable location services and try again.", [])) ∧
    (geoSupported = true → ∀ c, fix = some c →
      (handleStartDetails clId geoSupported fix o).2.head?
          = some (ApiCall.startChecklist clId (some c)) ∧
      (handleStartToday clId geoSupported fix o).2.head?
          = some (ApiCall.startChecklist clId (some c))) ∧
    (∀ co, ApiCall.startChecklist clId co ∈ (handleStartDetails clId geoSupported fix o).2 →
      geoSupported = true ∧ ∃ c, fix = some c ∧ co = some c) := by
  refine ⟨?_, ?_, ?_, ?_⟩
  · rintro rfl
    cases fix <;> exact ⟨rfl, rfl⟩
  · rintro rfl rfl
    exact ⟨rfl, rfl⟩
  · rintro rfl c rfl
    cases o <;> exact ⟨rfl, rfl⟩
  · intro co hmem
    cases geoSupported with
    | false =>
        simp [handleStartDetails] at hmem
    | true =>
        cases fix with
        | none => simp [handleStartDetails] at hmem
        | some c =>
            refine ⟨rfl, c, rfl, ?_⟩
            cases o <;> simp [handleStartDetails] at hmem <;> simp [hmem]

/-- Witness for `startGuard_sequencing` at a concrete id, a supported
geolocation, a concrete fix and a successful start call. -/
theorem startGuard_sequencing_witness :
    (true = false →
      handleStartDetails "c9" true (some (Coords.mk 10 20)) (Except.ok ()) =
        (some "Location permission is required to start this checklist.", []) ∧
      handleStartToday "c9" true (some (Coords.mk 10 20)) (Except.ok ()) =
        (some "Location permission is required to start a checklist.", [])) ∧
    (true = true → (some (Coords.mk 10 20) : Option Coords) = none →
      handleStartDetails "c9" true (some (Coords.mk 10 20)) (Except.ok ()) =
        (some "Unable to get your location. Please enable location services and try again.", []) ∧
      handleStartToday "c9" true (some (Coords.mk 10 20)) (Except.ok ()) =
        (some "Unable to get your location. Please enable location services and try again.", [])) ∧
    (true = true → ∀ c, (some (Coords.mk 10 20) : Option Coords) = some c →
      (handleStartDetails "c9" true (some (Coords.mk 10 20)) (Except.ok ())).2.head?
          = some (ApiCall.startChecklist "c9" (some c)) ∧
      (handleStartToday "c9" true (some (Coords.mk 10 20)) (Except.ok ())).2.head?
          = some (ApiCall.startChecklist "c9" (some c))) ∧
    (∀ co, ApiCall.startChecklist "c9" co
        ∈ (handleStartDetails "c9" true (some (Coords.mk 10 20)) (Except.ok ())).2 →
      true = true ∧ ∃ c, (some (Coords.mk 10 20) : Option Coords) = some c ∧ co = some c) :=
  startGuard_sequencing "c9" true (some (Coords.mk 10 20)) (Except.ok ())

/-- C7 counterexample: on a checklist whose status is already `reviewed`,
the review page refuses to render the review form ("Checklist is not ready
for review") and neither view offers the Review action — the call is
rejected, not treated as an idempotent update. -/
theorem review_on_reviewed_rejected :
    reviewPageReady
        (some (Checklist.mk "c1" Status.reviewed (some 4) none (some []) (some []))) = false ∧
    showReviewDetails Status.reviewed (some 4) (some Role.admin) = false ∧
    showReviewList (Checklist.mk "c1" Status.reviewed (some 4) none (some []) (some []))
        (some Role.admin) = false :=
  ⟨rfl, rfl, rfl⟩

/-- C7 amended: the review form is reachable only while the checklist status
is exactly `completed`; a checklist already in `reviewed` is rejected as not
ready for review (only within `completed` does resubmission overwrite an
existing rating — the form then titles itself "Update Review"). -/
theorem reviewGate_only_completed (cl : Option Checklist) :
    (reviewPageReady cl = true ↔ ∃ c, cl = some c ∧ c.status = Status.completed) ∧
    (∀ c, cl = some c → c.status = Status.reviewed → reviewPageReady cl = false) := by
  constructor
  · cases cl with
    | none => simp [reviewPageReady]
    | some c => simp [reviewPageReady]
  · rintro c rfl hst
    simp [reviewPageReady, hst]

/-- Witness for `reviewGate_only_completed` at a concrete `completed`
checklist. -/
theorem reviewGate_only_completed_witness :
    ((reviewPageReady (some (Checklist.mk "c3" Status.completed none none (some []) (some []))) = true
      ↔ ∃ c, (some (Checklist.mk "c3" Status.completed none none (some []) (some []))
                : Option Checklist) = some c ∧ c.status = Status.completed) ∧
     (∀ c, (some (Checklist.mk "c3" Status.completed none none (some []) (some []))
              : Option Checklist) = some c →
        c.status = Status.reviewed →
        reviewPageReady
          (some (Checklist.mk "c3" Status.completed none none (some []) (some []))) = false)) :=
  reviewGate_only_completed _

/-- C8 counterexample: the room-selection-card input site stores an entered
`0` as `0` — it clamps to `[0, 10]`, not to the inclusive range `[1, 10]`. -/
theorem clampCard_keeps_zero :
    clampCardCount (some 0) = some 0 ∧
    ¬ (∀ m, clampCardCount (some 0) = some m → 1 ≤ m ∧ m ≤ 10) := by
  refine ⟨rfl, ?_⟩
  intro h
  exact absurd (h 0 rfl).1 (by decide)

/-- C8 amended: the room-management-dialog and tag-input sites clamp a
non-empty entered count to `[1, 10]`; the room-selection-card site clamps to
`[0, 10]` (an entered `0` is stored as `0`); a stored `0` or an absent count
yields a zero requirement, and a zero requirement never disables submission. -/
theorem clamp_ranges :
    (∀ n m, clampDialogCount (some n) = some m → 1 ≤ m ∧ m ≤ 10) ∧
    (∀ n m, clampTagInputCount (some n) = some m → 1 ≤ m ∧ m ≤ 10) ∧
    (∀ n m, clampCardCount (some n) = some m → m ≤ 10) ∧
    (∀ b, requiredPhotos (some (Pivot.mk b (some 0))) = 0 ∧
      requiredPhotos (some (Pivot.mk b none)) = 0 ∧ requiredPhotos none = 0) ∧
    (∀ itemId total staged, submitDisabled none itemId 0 total staged = false) := by
  refine ⟨?_, ?_, ?_, ?_, ?_⟩
  · intro n m h
    simp only [clampDialogCount, Option.some.injEq] at h
    subst h
    exact ⟨Nat.le_max_left 1 _, Nat.max_le.mpr ⟨by norm_num, Nat.min_le_left 10 n⟩⟩
  · intro n m h
    simp only [clampTagInputCount, Option.some.injEq] at h
    subst h
    exact ⟨Nat.le_max_left 1 _, Nat.max_le.mpr ⟨by norm_num, Nat.min_le_left 10 n⟩⟩
  · intro n m h
    simp only [clampCardCount, Option.some.injEq] at h
    subst h
    exact Nat.max_le.mpr ⟨Nat.zero_le 10, Nat.min_le_left 10 n⟩
  · intro b
    exact ⟨rfl, rfl, rfl⟩
  · intro itemId total staged
    simp [submitDisabled]

/-- Witness for `clamp_ranges` at entered value 7 across the sites. -/
theorem clamp_ranges_witness :
    ((∀ n m, clampDialogCount (some n) = some m → 1 ≤ m ∧ m ≤ 10) ∧
     (∀ n m, clampTagInputCount (some n) = some m → 1 ≤ m ∧ m ≤ 10) ∧
     (∀ n m, clampCardCount (some n) = some m → m ≤ 10) ∧
     (∀ b, requiredPhotos (some (Pivot.mk b (some 0))) = 0 ∧
       requiredPhotos (some (Pivot.mk b none)) = 0 ∧ requiredPhotos none = 0) ∧
     (∀ itemId total staged, submitDisabled none itemId 0 total staged = false)) ∧
    clampDialogCount (some 7) = some 7 ∧ clampCardCount (some 12) = some 10 :=
  ⟨clamp_ranges, rfl, rfl⟩

/-- C9 counterexample: the checklists list view offers the Start action for a
pending checklist while the signed-in user is an admin — a role other than
housekeeper. -/
theorem start_offered_to_admin_on_list :
    showStartList (Checklist.mk "c2" Status.pending none none (some []) (some []))
        Role.admin = true ∧
    Role.admin ≠ Role.housekeeper :=
  ⟨rfl, by decide⟩

/-- C9 amended: in the checklist details view, Start and Complete are offered
only to housekeepers (on top of the status preconditions) and Review only to
admins or property owners (as is the review page's route guard; the
today-tasks view is route-guarded to housekeepers); the checklists list view,
however, offers Start and Complete on status alone, independent of role. -/
theorem role_gating (cl : Option Checklist) (c : Checklist)
    (role : Option Role) (st : Status) (rat : Option Nat) :
    (showStartDetails cl role = true → role = some Role.housekeeper) ∧
    (showCompleteDetails cl role = true → role = some Role.housekeeper) ∧
    (showReviewDetails st rat role = true →
      role = some Role.admin ∨ role = some Role.property_owner) ∧
    (showReviewList c role = true →
      role = some Role.admin ∨ role = some Role.property_owner) ∧
    (∀ ro : Role, ro ∈ reviewPageRoles ↔ (ro = Role.admin ∨ ro = Role.property_owner)) ∧
    (∀ ro : Role, ro ∈ todayTasksRoles ↔ ro = Role.housekeeper) ∧
    (∀ ro ro' : Role, showStartList c ro = showStartList c ro'
      ∧ showCompleteList c ro = showCompleteList c ro') := by
  refine ⟨?_, ?_, ?_, ?_, ?_, ?_, fun ro ro' => ⟨rfl, rfl⟩⟩
  · intro h
    simp only [showStartDetails, Bool.and_eq_true, beq_iff_eq] at h
    exact h.2
  · intro h
    simp only [showCompleteDetails, Bool.and_eq_true, beq_iff_eq] at h
    exact h.2
  · intro h
    simp only [showReviewDetails, Bool.and_eq_true, Bool.or_eq_true, beq_iff_eq] at h
    exact h.2
  · intro h
    simp only [showReviewList, Bool.and_eq_true, Bool.or_eq_true, beq_iff_eq] at h
    exact h.2
  · intro ro
    cases ro <;> simp [reviewPageRoles]
  · intro ro
    cases ro <;> simp [todayTasksRoles]

/-- Witness for `role_gating` at concrete arguments. -/
theorem role_gating_witness :
    ((showStartDetails (some (Checklist.mk "c4" Status.pending none none (some []) (some [])))
        (some Role.housekeeper) = true → (some Role.housekeeper : Option Role) = some Role.housekeeper) ∧
     (showCompleteDetails (some (Checklist.mk "c4" Status.pending none none (some []) (some [])))
        (some Role.housekeeper) = true → (some Role.housekeeper : Option Role) = some Role.housekeeper) ∧
     (showReviewDetails Status.completed none (some Role.housekeeper) = true →
        (some Role.housekeeper : Option Role) = some Role.admin ∨
        (some Role.housekeeper : Option Role) = some Role.property_owner) ∧
     (showReviewList (Checklist.mk "c4" Status.pending none none (some []) (some []))
        (some Role.housekeeper) = true →
        (some Role.housekeeper : Option Role) = some Role.admin ∨
        (some Role.housekeeper : Option Role) = some Role.property_owner) ∧
     (∀ ro : Role, ro ∈ reviewPageRoles ↔ (ro = Role.admin ∨ ro = Role.property_owner)) ∧
     (∀ ro : Role, ro ∈ todayTasksRoles ↔ ro = Role.housekeeper) ∧
     (∀ ro ro' : Role,
        showStartList (Checklist.mk "c4" Status.pending none none (some []) (some [])) ro
          = showStartList (Checklist.mk "c4" Status.pending none none (some []) (some [])) ro'
        ∧ showCompleteList (Checklist.mk "c4" Status.pending none none (some []) (some [])) ro
          = showCompleteList (Checklist.mk "c4" Status.pending none none (some []) (some [])) ro')) :=
  role_gating _ _ _ _ _

/-- C10 counterexample: when the backing update call succeeds but the
subsequent checklist refresh throws, the per-item form state is NOT cleared
(staged photos, previews and draft notes are all retained) even though the
submission's update succeeded — so "cleared exactly when the submission
succeeds" fails with success defined as the update call not throwing. -/
theorem submit_refresh_failure_keeps_form :
    (handleSubmit frameState frameItem (Except.ok ()) (Except.error "Network error")).1.selectedPhotosMap "i1"
      = ["p1.jpg"] ∧
    (handleSubmit frameState frameItem (Except.ok ()) (Except.error "Network error")).1.photoPreviewsMap "i1"
      = ["data1"] ∧
    (handleSubmit frameState frameItem (Except.ok ()) (Except.error "Network error")).1.itemNotesMap "i1"
      = "draft note" ∧
    (handleSubmit frameState frameItem (Except.ok ()) (Except.error "Network error")).1.error
      = some "Network error" :=
  ⟨rfl, rfl, rfl, rfl⟩

/-- C10 amended: when the backing update call throws, the staged photos,
previews and draft notes are unchanged and only the error message (and the
transient updating flag) is set; the per-item form state is cleared exactly
when both the update call and the subsequent checklist refresh succeed — a
refresh failure after a successful update also retains the form state. -/
theorem submit_form_state_frame (s : PageState) (item : ChecklistItem)
    (cl : Checklist) (u : Except String Unit) (r : Except String Checklist)
    (hcl : s.checklist = some cl) (hitem : item.completed = false) :
    (∀ msg, u = Except.error msg →
      handleSubmit s item u r =
        ({ s with updating := none, error := some msg },
         [ApiCall.updateItem cl.id item.id true (s.itemNotesMap item.id)
            (s.selectedPhotosMap item.id)])) ∧
    (∀ msg, u = Except.ok () → r = Except.error msg →
      handleSubmit s item u r =
        ({ s with updating := none, error := some msg },
         [ApiCall.updateItem cl.id item.id true (s.itemNotesMap item.id)
            (s.selectedPhotosMap item.id), ApiCall.getChecklist cl.id])) ∧
    (∀ data, u = Except.ok () → r = Except.ok data →
      (handleSubmit s item u r).1.selectedPhotosMap item.id = [] ∧
      (handleSubmit s item u r).1.photoPreviewsMap item.id = [] ∧
      (handleSubmit s item u r).1.itemNotesMap item.id = "" ∧
      (handleSubmit s item u r).1.success = some "Task updated successfully!" ∧
      (∀ k, k ≠ item.id →
        (handleSubmit s item u r).1.selectedPhotosMap k = s.selectedPhotosMap k ∧
        (handleSubmit s item u r).1.photoPreviewsMap k = s.photoPreviewsMap k ∧
        (handleSubmit s item u r).1.itemNotesMap k = s.itemNotesMap k)) := by
  refine ⟨?_, ?_, ?_⟩
  · rintro msg rfl
    simp [handleSubmit, hcl, hitem]
  · rintro msg rfl rfl
    simp [handleSubmit, hcl, hitem]
  · rintro data rfl rfl
    simp only [handleSubmit, hcl, hitem, Bool.false_eq_true, if_false]
    refine ⟨by simp, by simp, by simp, by simp, ?_⟩
    intro k hk
    simp [hk]

/-- Witness for `submit_form_state_frame` at `frameState` and a successful
update plus successful refresh. -/
theorem submit_form_state_frame_witness :
    frameState.checklist = some (Checklist.mk "c1" Status.in_progress none none (some [])
      (some [ChecklistItem.mk "i1" "r1" false none none])) ∧
    frameItem.completed = false ∧
    ((∀ msg, (Except.ok () : Except String Unit) = Except.error msg →
      handleSubmit frameState frameItem (Except.ok ())
          (Except.ok (Checklist.mk "c1" Status.in_progress none none (some [])
            (some [ChecklistItem.mk "i1" "r1" true none none]))) =
        ({ frameState with updating := none, error := some msg },
         [ApiCall.updateItem "c1" "i1" true (frameState.itemNotesMap "i1")
            (frameState.selectedPhotosMap "i1")])) ∧
    (∀ msg, (Except.ok () : Except String Unit) = Except.ok () →
      (Except.ok (Checklist.mk "c1" Status.in_progress none none (some [])
          (some [ChecklistItem.mk "i1" "r1" true none none])) : Except String Checklist)
        = Except.error msg →
      handleSubmit frameState frameItem (Except.ok ())
          (Except.ok (Checklist.mk "c1" Status.in_progress none none (some [])
            (some [ChecklistItem.mk "i1" "r1" true none none]))) =
        ({ frameState with updating := none, error := some msg },
         [ApiCall.updateItem "c1" "i1" true (frameState.itemNotesMap "i1")
            (frameState.selectedPhotosMap "i1"), ApiCall.getChecklist "c1"])) ∧
    (∀ data, (Except.ok () : Except String Unit) = Except.ok () →
      (Except.ok (Checklist.mk "c1" Status.in_progress none none (some [])
          (some [ChecklistItem.mk "i1" "r1" true none none])) : Except String Checklist)
        = Except.ok data →
      (handleSubmit frameState frameItem (Except.ok ())
          (Except.ok (Checklist.mk "c1" Status.in_progress none none (some [])
            (some [ChecklistItem.mk "i1" "r1" true none none])))).1.selectedPhotosMap "i1" = [] ∧
      (handleSubmit frameState frameItem (Except.ok ())
          (Except.ok (Checklist.mk "c1" Status.in_progress none none (some [])
            (some [ChecklistItem.mk "i1" "r1" true none none])))).1.photoPreviewsMap "i1" = [] ∧
      (handleSubmit frameState frameItem (Except.ok ())
          (Except.ok (Checklist.mk "c1" Status.in_progress none none (some [])
            (some [ChecklistItem.mk "i1" "r1" true none none])))).1.itemNotesMap "i1" = "" ∧
      (handleSubmit frameState frameItem (Except.ok ())
          (Except.ok (Checklist.mk "c1" Status.in_progress none none (some [])
            (some [ChecklistItem.mk "i1" "r1" true none none])))).1.success
        = some "Task updated successfully!" ∧
      (∀ k, k ≠ "i1" →
        (handleSubmit frameState frameItem (Except.ok ())
            (Except.ok (Checklist.mk "c1" Status.in_progress none none (some [])
              (some [ChecklistItem.mk "i1" "r1" true none none])))).1.selectedPhotosMap k
          = frameState.selectedPhotosMap k ∧
        (handleSubmit frameState frameItem (Except.ok ())
            (Except.ok (Checklist.mk "c1" Status.in_progress none none (some [])
              (some [ChecklistItem.mk "i1" "r1" true none none])))).1.photoPreviewsMap k
          = frameState.photoPreviewsMap k ∧
        (handleSubmit frameState frameItem (Except.ok ())
            (Except.ok (Checklist.mk "c1" Status.in_progress none none (some [])
              (some [ChecklistItem.mk "i1" "r1" true none none])))).1.itemNotesMap k
          = frameState.itemNotesMap k))) :=
  ⟨rfl, rfl, submit_form_state_frame frameState frameItem _ _ _ rfl rfl⟩

end CleanTrack
